import Mathlib

/-!
Verification of the Llama-3 NPU pipeline example script
(`python/llm/example/NPU/HF-Transformers-AutoModels/LLM/Pipeline-Models/llama3.py`).

The script's own logic consists of the chat-prompt builder `get_prompt`,
the low-bit checkpoint load/save branching, and a three-iteration
generation harness.  Model loading, tokenisation and generation are
external library calls and are embedded as opaque function parameters.
-/

/-- Python `str.isspace` on a single character: the characters removed by
`str.strip()` with no argument (ASCII whitespace, the C1 control spaces,
and the Unicode space separators). -/
def pyIsSpace (c : Char) : Bool :=
  decide ((0x09 ≤ c.toNat ∧ c.toNat ≤ 0x0d) ∨ (0x1c ≤ c.toNat ∧ c.toNat ≤ 0x1f) ∨
    c.toNat = 0x20 ∨ c.toNat = 0x85 ∨ c.toNat = 0xa0 ∨ c.toNat = 0x1680 ∨
    (0x2000 ≤ c.toNat ∧ c.toNat ≤ 0x200a) ∨ c.toNat = 0x2028 ∨ c.toNat = 0x2029 ∨
    c.toNat = 0x202f ∨ c.toNat = 0x205f ∨ c.toNat = 0x3000)

/-- Python `str.strip()` on the character list: drop whitespace from the
front, then from the back (implemented by reversing). -/
def pyStripList (l : List Char) : List Char :=
  ((l.dropWhile pyIsSpace).reverse.dropWhile pyIsSpace).reverse

/-- Python `str.strip()`: remove leading and trailing whitespace. -/
def pyStrip (s : String) : String :=
  String.mk (pyStripList s.data)

/-- The system-role block appended by `get_prompt` when `system_prompt` is
non-empty.  The source inserts `system_prompt` into the f-string verbatim,
with no `.strip()`. -/
def systemBlockStr (system_prompt : String) : String :=
  "<|start_header_id|>system<|end_header_id|>\n\n" ++ system_prompt ++ "<|eot_id|>"

/-- The user-role block appended for a history turn: the turn's user text is
`.strip()`-ed. -/
def userBlockStr (t : String) : String :=
  "<|start_header_id|>user<|end_header_id|>\n\n" ++ pyStrip t ++ "<|eot_id|>"

/-- The assistant-role block appended for a history turn: the turn's
assistant text is `.strip()`-ed. -/
def assistantBlockStr (t : String) : String :=
  "<|start_header_id|>assistant<|end_header_id|>\n\n" ++ pyStrip t ++ "<|eot_id|>"

/-- The final block appended by `get_prompt`: the stripped `user_input` in a
user-role block, followed immediately by an empty assistant header. -/
def finalUserBlock (user_input : String) : String :=
  "<|start_header_id|>user<|end_header_id|>\n\n" ++ pyStrip user_input ++
    "<|eot_id|><|start_header_id|>assistant<|end_header_id|>\n\n"

/-- The blocks appended by the `for history_input, history_response in
chat_history` loop of `get_prompt`, in order. -/
def historyBlocks : List (String × String) → List String
  | [] => []
  | (history_input, history_response) :: rest =>
      userBlockStr history_input :: assistantBlockStr history_response ::
        historyBlocks rest

/-- The `prompt_texts` list built by `get_prompt` just before the final
`''.join(prompt_texts)`. -/
def promptTexts (user_input : String) (chat_history : List (String × String))
    (system_prompt : String) : List String :=
  ["<|begin_of_text|>"]
    ++ (if system_prompt ≠ "" then [systemBlockStr system_prompt] else [])
    ++ historyBlocks chat_history
    ++ [finalUserBlock user_input]

/-- `get_prompt` from the source: build the block list and join it with no
separator. -/
def get_prompt (user_input : String) (chat_history : List (String × String))
    (system_prompt : String) : String :=
  String.join (promptTexts user_input chat_history system_prompt)

/-- `DEFAULT_SYSTEM_PROMPT` in the source is the triple-quoted string
consisting of a single escaped line break, i.e. the empty string. -/
def DEFAULT_SYSTEM_PROMPT : String := ""

/-- The claim C1 concrete scenario. -/
theorem get_prompt_concrete :
    get_prompt "What is AI?" [] "" =
      "<|begin_of_text|><|start_header_id|>user<|end_header_id|>\n\nWhat is AI?<|eot_id|><|start_header_id|>assistant<|end_header_id|>\n\n" := by
  decide

theorem join_nil : String.join [] = "" := rfl

theorem join_cons (s : String) (l : List String) :
    String.join (s :: l) = s ++ String.join l := by
  apply String.ext
  simp

theorem join_append (l₁ l₂ : List String) :
    String.join (l₁ ++ l₂) = String.join l₁ ++ String.join l₂ := by
  apply String.ext
  simp

/-- Structural form of `get_prompt`: begin-of-text, optional system block
(with the system prompt inserted verbatim), the history blocks, and the
final user block. -/
theorem get_prompt_eq (u : String) (h : List (String × String)) (s : String) :
    get_prompt u h s =
      "<|begin_of_text|>" ++ (if s ≠ "" then systemBlockStr s else "") ++
        (String.join (historyBlocks h) ++ finalUserBlock u) := by
  unfold get_prompt promptTexts
  by_cases hs : s = "" <;>
    simp [hs, join_cons, join_append, join_nil, String.append_assoc]

/-- C2 counterexample: for `system_prompt = " x "` the system-role block of
the rendered prompt holds `" x "` verbatim, so the output differs from the
rendering that would place the trimmed text `pyStrip " x " = "x"` between
the system header and the end-of-turn marker. -/
theorem get_prompt_system_not_trimmed_cex :
    ¬ (" x " = "") ∧
    get_prompt "u" [] " x " ≠
      "<|begin_of_text|>" ++
        ("<|start_header_id|>system<|end_header_id|>\n\n" ++ pyStrip " x " ++ "<|eot_id|>") ++
        (String.join (historyBlocks []) ++ finalUserBlock "u") := by
  constructor
  · decide
  · decide

/-- C2 (amended): for every non-empty `system_prompt`, the system-role block
emitted by `get_prompt` contains the system prompt text verbatim (not
trimmed) between the "system" header and the end-of-turn marker. -/
theorem get_prompt_system_block_verbatim (u : String) (h : List (String × String))
    (s : String) (hs : s ≠ "") :
    get_prompt u h s =
      "<|begin_of_text|>" ++
        ("<|start_header_id|>system<|end_header_id|>\n\n" ++ s ++ "<|eot_id|>") ++
        (String.join (historyBlocks h) ++ finalUserBlock u) := by
  rw [get_prompt_eq, if_pos hs]
  rfl

theorem get_prompt_system_block_verbatim_witness :
    (" x " : String) ≠ "" ∧
    get_prompt "u" [] " x " =
      "<|begin_of_text|>" ++
        ("<|start_header_id|>system<|end_header_id|>\n\n" ++ " x " ++ "<|eot_id|>") ++
        (String.join (historyBlocks []) ++ finalUserBlock "u") :=
  ⟨by decide, get_prompt_system_block_verbatim "u" [] " x " (by decide)⟩

/-- C10: a non-empty, all-whitespace `system_prompt` still produces a
system-role block, and the block holds the whitespace text verbatim
(untrimmed) between the "system" header and the end-of-turn marker. -/
theorem get_prompt_whitespace_system_verbatim (u : String) (h : List (String × String))
    (s : String) (hs : s ≠ "") (_hws : s.data.all pyIsSpace = true) :
    get_prompt u h s =
      "<|begin_of_text|>" ++
        ("<|start_header_id|>system<|end_header_id|>\n\n" ++ s ++ "<|eot_id|>") ++
        (String.join (historyBlocks h) ++ finalUserBlock u) := by
  rw [get_prompt_eq, if_pos hs]
  rfl

theorem get_prompt_whitespace_system_verbatim_witness :
    (" " : String) ≠ "" ∧ " ".data.all pyIsSpace = true ∧
    get_prompt "hi" [] " " =
      "<|begin_of_text|>" ++
        ("<|start_header_id|>system<|end_header_id|>\n\n" ++ " " ++ "<|eot_id|>") ++
        (String.join (historyBlocks []) ++ finalUserBlock "hi") :=
  ⟨by decide, by decide, get_prompt_whitespace_system_verbatim "hi" [] " " (by decide) (by decide)⟩

/-- C9: `get_prompt` is a pure function of its three arguments; two calls on
identical arguments yield identical strings. -/
theorem get_prompt_deterministic (u : String) (h : List (String × String)) (s : String) :
    get_prompt u h s = get_prompt u h s := rfl

/-- A rendered block opens with the exact system header. -/
def isSystemBlock (t : String) : Bool :=
  "<|start_header_id|>system<|end_header_id|>".data.isPrefixOf t.data

/-- A rendered block opens with the exact user header. -/
def isUserBlock (t : String) : Bool :=
  "<|start_header_id|>user<|end_header_id|>".data.isPrefixOf t.data

/-- A rendered block opens with the exact assistant header. -/
def isAssistantBlock (t : String) : Bool :=
  "<|start_header_id|>assistant<|end_header_id|>".data.isPrefixOf t.data

theorem isPrefixOf_mismatch_eq_false {a b : Char} (c t₁ t₂ : List Char) (hab : a ≠ b) :
    ((c ++ a :: t₁).isPrefixOf (c ++ b :: t₂)) = false := by
  rw [← Bool.not_eq_true, List.isPrefixOf_iff_prefix, List.prefix_append_right_inj,
    List.cons_prefix_cons]
  rintro ⟨h1, -⟩
  exact hab h1

theorem sysHeader_not_pref_user (rest : List Char) :
    ("<|start_header_id|>system<|end_header_id|>".data.isPrefixOf
      ("<|start_header_id|>user<|end_header_id|>\n\n".data ++ rest)) = false := by
  rw [show "<|start_header_id|>system<|end_header_id|>".data =
      "<|start_header_id|>".data ++ 's' :: "ystem<|end_header_id|>".data from by decide,
    show "<|start_header_id|>user<|end_header_id|>\n\n".data =
      "<|start_header_id|>".data ++ 'u' :: "ser<|end_header_id|>\n\n".data from by decide,
    List.append_assoc, List.cons_append]
  exact isPrefixOf_mismatch_eq_false _ _ _ (by decide)

theorem sysHeader_not_pref_assistant (rest : List Char) :
    ("<|start_header_id|>system<|end_header_id|>".data.isPrefixOf
      ("<|start_header_id|>assistant<|end_header_id|>\n\n".data ++ rest)) = false := by
  rw [show "<|start_header_id|>system<|end_header_id|>".data =
      "<|start_header_id|>".data ++ 's' :: "ystem<|end_header_id|>".data from by decide,
    show "<|start_header_id|>assistant<|end_header_id|>\n\n".data =
      "<|start_header_id|>".data ++ 'a' :: "ssistant<|end_header_id|>\n\n".data from by decide,
    List.append_assoc, List.cons_append]
  exact isPrefixOf_mismatch_eq_false _ _ _ (by decide)

theorem isSystemBlock_userBlockStr (x : String) :
    isSystemBlock (userBlockStr x) = false := by
  unfold isSystemBlock userBlockStr
  rw [String.data_append, String.data_append, List.append_assoc]
  exact sysHeader_not_pref_user _

theorem isSystemBlock_assistantBlockStr (x : String) :
    isSystemBlock (assistantBlockStr x) = false := by
  unfold isSystemBlock assistantBlockStr
  rw [String.data_append, String.data_append, List.append_assoc]
  exact sysHeader_not_pref_assistant _

theorem isSystemBlock_finalUserBlock (x : String) :
    isSystemBlock (finalUserBlock x) = false := by
  unfold isSystemBlock finalUserBlock
  rw [String.data_append, String.data_append, List.append_assoc]
  exact sysHeader_not_pref_user _

theorem isSystemBlock_systemBlockStr (s : String) :
    isSystemBlock (systemBlockStr s) = true := by
  unfold isSystemBlock systemBlockStr
  rw [String.data_append, String.data_append, List.append_assoc,
    show "<|start_header_id|>system<|end_header_id|>\n\n".data =
      "<|start_header_id|>system<|end_header_id|>".data ++ "\n\n".data from by decide,
    List.append_assoc, List.isPrefixOf_iff_prefix]
  exact List.prefix_append _ _

theorem isSystemBlock_bot : isSystemBlock "<|begin_of_text|>" = false := by decide

theorem userHeader_not_pref_assistant (rest : List Char) :
    ("<|start_header_id|>user<|end_header_id|>".data.isPrefixOf
      ("<|start_header_id|>assistant<|end_header_id|>\n\n".data ++ rest)) = false := by
  rw [show "<|start_header_id|>user<|end_header_id|>".data =
      "<|start_header_id|>".data ++ 'u' :: "ser<|end_header_id|>".data from by decide,
    show "<|start_header_id|>assistant<|end_header_id|>\n\n".data =
      "<|start_header_id|>".data ++ 'a' :: "ssistant<|end_header_id|>\n\n".data from by decide,
    List.append_assoc, List.cons_append]
  exact isPrefixOf_mismatch_eq_false _ _ _ (by decide)

theorem asstHeader_not_pref_user (rest : List Char) :
    ("<|start_header_id|>assistant<|end_header_id|>".data.isPrefixOf
      ("<|start_header_id|>user<|end_header_id|>\n\n".data ++ rest)) = false := by
  rw [show "<|start_header_id|>assistant<|end_header_id|>".data =
      "<|start_header_id|>".data ++ 'a' :: "ssistant<|end_header_id|>".data from by decide,
    show "<|start_header_id|>user<|end_header_id|>\n\n".data =
      "<|start_header_id|>".data ++ 'u' :: "ser<|end_header_id|>\n\n".data from by decide,
    List.append_assoc, List.cons_append]
  exact isPrefixOf_mismatch_eq_false _ _ _ (by decide)

theorem isUserBlock_userBlockStr (x : String) :
    isUserBlock (userBlockStr x) = true := by
  unfold isUserBlock userBlockStr
  rw [String.data_append, String.data_append, List.append_assoc,
    show "<|start_header_id|>user<|end_header_id|>\n\n".data =
      "<|start_header_id|>user<|end_header_id|>".data ++ "\n\n".data from by decide,
    List.append_assoc, List.isPrefixOf_iff_prefix]
  exact List.prefix_append _ _

theorem isUserBlock_assistantBlockStr (x : String) :
    isUserBlock (assistantBlockStr x) = false := by
  unfold isUserBlock assistantBlockStr
  rw [String.data_append, String.data_append, List.append_assoc]
  exact userHeader_not_pref_assistant _

theorem isAssistantBlock_assistantBlockStr (x : String) :
    isAssistantBlock (assistantBlockStr x) = true := by
  unfold isAssistantBlock assistantBlockStr
  rw [String.data_append, String.data_append, List.append_assoc,
    show "<|start_header_id|>assistant<|end_header_id|>\n\n".data =
      "<|start_header_id|>assistant<|end_header_id|>".data ++ "\n\n".data from by decide,
    List.append_assoc, List.isPrefixOf_iff_prefix]
  exact List.prefix_append _ _

theorem isAssistantBlock_userBlockStr (x : String) :
    isAssistantBlock (userBlockStr x) = false := by
  unfold isAssistantBlock userBlockStr
  rw [String.data_append, String.data_append, List.append_assoc]
  exact asstHeader_not_pref_user _

theorem countP_isSystemBlock_historyBlocks (h : List (String × String)) :
    (historyBlocks h).countP isSystemBlock = 0 := by
  induction h with
  | nil => rfl
  | cons a t ih =>
    obtain ⟨x, y⟩ := a
    simp [historyBlocks, List.countP_cons, isSystemBlock_userBlockStr,
      isSystemBlock_assistantBlockStr, ih]

theorem countP_isUserBlock_historyBlocks (h : List (String × String)) :
    (historyBlocks h).countP isUserBlock = h.length := by
  induction h with
  | nil => rfl
  | cons a t ih =>
    obtain ⟨x, y⟩ := a
    simp [historyBlocks, List.countP_cons, isUserBlock_userBlockStr,
      isUserBlock_assistantBlockStr, ih]

theorem countP_isAssistantBlock_historyBlocks (h : List (String × String)) :
    (historyBlocks h).countP isAssistantBlock = h.length := by
  induction h with
  | nil => rfl
  | cons a t ih =>
    obtain ⟨x, y⟩ := a
    simp [historyBlocks, List.countP_cons, isAssistantBlock_userBlockStr,
      isAssistantBlock_assistantBlockStr, ih]

theorem length_historyBlocks (h : List (String × String)) :
    (historyBlocks h).length = 2 * h.length := by
  induction h with
  | nil => rfl
  | cons a t ih =>
    obtain ⟨x, y⟩ := a
    simp [historyBlocks, ih]
    omega

theorem historyBlocks_pairs (h : List (String × String)) :
    ∀ (i : ℕ) (p : String × String), h[i]? = some p →
      (historyBlocks h)[2*i]? = some (userBlockStr p.1) ∧
      (historyBlocks h)[2*i+1]? = some (assistantBlockStr p.2) := by
  induction h with
  | nil => intro i p hp; simp at hp
  | cons a t ih =>
    obtain ⟨x, y⟩ := a
    intro i p hp
    cases i with
    | zero =>
      rw [List.getElem?_cons_zero] at hp
      cases hp
      refine ⟨?_, ?_⟩ <;> simp [historyBlocks]
    | succ j =>
      rw [List.getElem?_cons_succ] at hp
      rw [show 2 * (j+1) = 2*j + 1 + 1 from by omega]
      simp only [historyBlocks, List.getElem?_cons_succ]
      exact ih j p hp

/-- C4: for a non-empty system prompt the block list of the rendered prompt
is begin-of-text, then the system block, then the history and final user
blocks; the system block is the only block opening with the system header. -/
theorem get_prompt_unique_system_block (u : String) (h : List (String × String))
    (s : String) (hs : s ≠ "") :
    promptTexts u h s =
      "<|begin_of_text|>" :: systemBlockStr s ::
        (historyBlocks h ++ [finalUserBlock u]) ∧
    isSystemBlock (systemBlockStr s) = true ∧
    (promptTexts u h s).countP isSystemBlock = 1 := by
  have hlist : promptTexts u h s =
      "<|begin_of_text|>" :: systemBlockStr s ::
        (historyBlocks h ++ [finalUserBlock u]) := by
    unfold promptTexts
    rw [if_pos hs]
    rfl
  refine ⟨hlist, isSystemBlock_systemBlockStr s, ?_⟩
  rw [hlist]
  simp [List.countP_cons, List.countP_append, isSystemBlock_bot,
    isSystemBlock_systemBlockStr, isSystemBlock_finalUserBlock,
    countP_isSystemBlock_historyBlocks]

theorem get_prompt_unique_system_block_witness :
    ("Be nice" : String) ≠ "" ∧
    promptTexts "u" [] "Be nice" =
      "<|begin_of_text|>" :: systemBlockStr "Be nice" ::
        (historyBlocks [] ++ [finalUserBlock "u"]) ∧
    (promptTexts "u" [] "Be nice").countP isSystemBlock = 1 :=
  ⟨by decide, (get_prompt_unique_system_block "u" [] "Be nice" (by decide)).1,
    (get_prompt_unique_system_block "u" [] "Be nice" (by decide)).2.2⟩

/-- C5: the rendered block list holds the history turns between the optional
system block and the final user block; a history of length k contributes
exactly k user blocks and k assistant blocks, in history order (the turn at
index i yields the user block at index 2i and the assistant block at index
2i+1). -/
theorem get_prompt_history_pairs (u : String) (h : List (String × String)) (s : String) :
    promptTexts u h s =
      ["<|begin_of_text|>"] ++ (if s ≠ "" then [systemBlockStr s] else []) ++
        historyBlocks h ++ [finalUserBlock u] ∧
    (historyBlocks h).length = 2 * h.length ∧
    (historyBlocks h).countP isUserBlock = h.length ∧
    (historyBlocks h).countP isAssistantBlock = h.length ∧
    (historyBlocks h).countP isSystemBlock = 0 ∧
    ∀ (i : ℕ) (p : String × String), h[i]? = some p →
      (historyBlocks h)[2*i]? = some (userBlockStr p.1) ∧
      (historyBlocks h)[2*i+1]? = some (assistantBlockStr p.2) :=
  ⟨rfl, length_historyBlocks h, countP_isUserBlock_historyBlocks h,
    countP_isAssistantBlock_historyBlocks h, countP_isSystemBlock_historyBlocks h,
    historyBlocks_pairs h⟩

theorem get_prompt_history_pairs_witness :
    ([("Hello", "Hi there")] : List (String × String))[0]? = some ("Hello", "Hi there") ∧
    (historyBlocks [("Hello", "Hi there")])[0]? = some (userBlockStr "Hello") ∧
    (historyBlocks [("Hello", "Hi there")])[1]? = some (assistantBlockStr "Hi there") ∧
    (historyBlocks [("Hello", "Hi there")]).length = 2 * 1 :=
  ⟨rfl,
    ((get_prompt_history_pairs "Hi" [("Hello", "Hi there")] "Be nice").2.2.2.2.2
      0 ("Hello", "Hi there") rfl).1,
    ((get_prompt_history_pairs "Hi" [("Hello", "Hi there")] "Be nice").2.2.2.2.2
      0 ("Hello", "Hi there") rfl).2,
    (get_prompt_history_pairs "Hi" [("Hello", "Hi there")] "Be nice").2.1⟩

/-- C6: with empty history and empty system prompt the rendered prompt
begins with the begin-of-text marker and its block list holds no
system-role block. -/
theorem get_prompt_no_system_block (u : String) :
    "<|begin_of_text|>".data <+: (get_prompt u [] "").data ∧
    (promptTexts u [] "").countP isSystemBlock = 0 := by
  constructor
  · rw [get_prompt_eq]
    simp only [ne_eq, not_true_eq_false, if_false, historyBlocks, join_nil,
      String.empty_append, String.append_empty, String.data_append]
    exact List.prefix_append _ _
  · simp [promptTexts, historyBlocks, List.countP_cons, List.countP_append,
      isSystemBlock_bot, isSystemBlock_finalUserBlock]

theorem dropWhile_pyIsSpace_idem (l : List Char) :
    (l.dropWhile pyIsSpace).dropWhile pyIsSpace = l.dropWhile pyIsSpace := by
  induction l with
  | nil => rfl
  | cons a t ih =>
    by_cases h : pyIsSpace a = true
    · simp [List.dropWhile_cons, h, ih]
    · simp [List.dropWhile_cons, h]

theorem head_dropWhile_false (p : Char → Bool) (l : List Char) :
    ∀ (a : Char) (t : List Char), l.dropWhile p = a :: t → p a = false := by
  induction l with
  | nil => intro a t h; simp [List.dropWhile] at h
  | cons b u ih =>
    intro a t h
    rw [List.dropWhile_cons] at h
    by_cases hb : p b = true
    · rw [if_pos hb] at h
      exact ih a t h
    · rw [if_neg hb] at h
      injection h with h1 h2
      subst h1
      simpa using hb

theorem dropWhile_eq_self_of_head (p : Char → Bool) (l : List Char)
    (h : ∀ a t, l = a :: t → p a = false) : l.dropWhile p = l := by
  cases l with
  | nil => rfl
  | cons a t =>
    rw [List.dropWhile_cons, if_neg]
    simp [h a t rfl]

theorem pyStripList_pref (l : List Char) :
    pyStripList l <+: l.dropWhile pyIsSpace := by
  unfold pyStripList
  exact List.reverse_suffix.mp (by
    rw [List.reverse_reverse]
    exact List.dropWhile_suffix _)

theorem dropWhile_pyStripList (l : List Char) :
    (pyStripList l).dropWhile pyIsSpace = pyStripList l := by
  apply dropWhile_eq_self_of_head
  intro a t h
  obtain ⟨r, hr⟩ := pyStripList_pref l
  rw [h] at hr
  exact head_dropWhile_false pyIsSpace l a (t ++ r) (by rw [← hr]; simp)

theorem pyStripList_idem (l : List Char) :
    pyStripList (pyStripList l) = pyStripList l := by
  show (((pyStripList l).dropWhile pyIsSpace).reverse.dropWhile pyIsSpace).reverse
      = pyStripList l
  rw [dropWhile_pyStripList]
  have h2 : (pyStripList l).reverse =
      (l.dropWhile pyIsSpace).reverse.dropWhile pyIsSpace := by
    unfold pyStripList
    rw [List.reverse_reverse]
  rw [h2, dropWhile_pyIsSpace_idem, ← h2, List.reverse_reverse]

theorem pyStrip_idem (s : String) : pyStrip (pyStrip s) = pyStrip s :=
  congrArg String.mk (pyStripList_idem s.data)

theorem userBlockStr_strip (x : String) :
    userBlockStr (pyStrip x) = userBlockStr x := by
  unfold userBlockStr
  rw [pyStrip_idem]

theorem assistantBlockStr_strip (x : String) :
    assistantBlockStr (pyStrip x) = assistantBlockStr x := by
  unfold assistantBlockStr
  rw [pyStrip_idem]

theorem finalUserBlock_strip (x : String) :
    finalUserBlock (pyStrip x) = finalUserBlock x := by
  unfold finalUserBlock
  rw [pyStrip_idem]

theorem historyBlocks_strip (h : List (String × String)) :
    historyBlocks (h.map fun t => (pyStrip t.1, pyStrip t.2)) = historyBlocks h := by
  induction h with
  | nil => rfl
  | cons a t ih =>
    obtain ⟨x, y⟩ := a
    simp [historyBlocks, userBlockStr_strip, assistantBlockStr_strip, ih]

/-- C3: surrounding whitespace in the user input or in any history turn is
invisible to `get_prompt`: pre-stripping every user and history text leaves
the rendered output unchanged, because each such text is stripped before
being placed between its header and end-of-turn marker. -/
theorem get_prompt_strip_invariant (u : String) (h : List (String × String)) (s : String) :
    get_prompt (pyStrip u) (h.map fun t => (pyStrip t.1, pyStrip t.2)) s =
      get_prompt u h s := by
  unfold get_prompt promptTexts
  rw [historyBlocks_strip, finalUserBlock_strip]

/-- The external collaborators of the harness: the tokenizer's `encode` and
`decode` (the Bool is `skip_special_tokens`) and the model's `generate`,
all opaque.  `generate` maps the input ids to the single output row the
script reads as `output[0]`. -/
structure Externals where
  encode : String → List Nat
  generate : List Nat → List Nat
  decode : List Nat → Bool → String

/-- What one loop iteration leaves behind: the decoded output string when
streaming is disabled (`None` when the streamer consumed the tokens), and
the reported elapsed time. -/
structure IterResult where
  decoded : Option String
  elapsed : ℚ

/-- One iteration of the `for i in range(3)` loop: build the prompt from
`args.prompt`, empty history and `DEFAULT_SYSTEM_PROMPT`, encode it, read
the clock, generate, read the clock again; when streaming is disabled,
decode the full output with `skip_special_tokens=False`.  The wall clock is
a sequence of timestamps, read twice per iteration. -/
def runIteration (ext : Externals) (clock : ℕ → ℚ) (promptArg : String)
    (disableStreaming : Bool) (i : ℕ) : IterResult :=
  let prompt := get_prompt promptArg [] DEFAULT_SYSTEM_PROMPT
  let ids := ext.encode prompt
  let st := clock (2 * i)
  let out := ext.generate ids
  let en := clock (2 * i + 1)
  { decoded := if disableStreaming then some (ext.decode out false) else none,
    elapsed := en - st }

/-- The whole `for i in range(3)` generation loop. -/
def runHarness (ext : Externals) (clock : ℕ → ℚ) (promptArg : String)
    (disableStreaming : Bool) : List IterResult :=
  (List.range 3).map (runIteration ext clock promptArg disableStreaming)

/-- C7: with streaming disabled and a monotone clock, the harness produces
exactly 3 results, each holding the decoded full output (special tokens
included, i.e. `skip_special_tokens=False`) and an elapsed time that equals
the end timestamp minus the start timestamp and is nonnegative. -/
theorem harness_three_results (ext : Externals) (clock : ℕ → ℚ) (promptArg : String)
    (hclock : Monotone clock) :
    (runHarness ext clock promptArg true).length = 3 ∧
    ((runHarness ext clock promptArg true).filterMap IterResult.decoded).length = 3 ∧
    (∀ r ∈ runHarness ext clock promptArg true,
      r.decoded = some (ext.decode
        (ext.generate (ext.encode (get_prompt promptArg [] DEFAULT_SYSTEM_PROMPT))) false) ∧
      0 ≤ r.elapsed) ∧
    ∀ i : ℕ, i < 3 → (runHarness ext clock promptArg true)[i]? =
      some { decoded := some (ext.decode
               (ext.generate (ext.encode (get_prompt promptArg [] DEFAULT_SYSTEM_PROMPT))) false),
             elapsed := clock (2 * i + 1) - clock (2 * i) } := by
  refine ⟨rfl, rfl, ?_, ?_⟩
  · intro r hr
    have hmem : r = runIteration ext clock promptArg true 0 ∨
        r = runIteration ext clock promptArg true 1 ∨
        r = runIteration ext clock promptArg true 2 := by
      simpa [runHarness, List.range_succ] using hr
    rcases hmem with h0 | h1 | h2 <;> subst_vars <;>
      exact ⟨rfl, sub_nonneg.mpr (hclock (Nat.le_succ _))⟩
  · intro i hi
    interval_cases i <;> rfl

theorem harness_three_results_witness :
    Monotone (fun n : ℕ => (n : ℚ)) ∧
    (runHarness ⟨fun _ => [], fun x => x, fun _ _ => "out"⟩
      (fun n => (n : ℚ)) "What is AI?" true).length = 3 :=
  ⟨fun _ _ hab => Nat.cast_le.mpr hab,
    (harness_three_results ⟨fun _ => [], fun x => x, fun _ _ => "out"⟩
      (fun n => (n : ℚ)) "What is AI?" (fun _ _ hab => Nat.cast_le.mpr hab)).1⟩

/-- How the script obtains the model. -/
inductive LoadAction where
  | fromPretrained : LoadAction
  | loadLowBit : LoadAction

/-- The load branch of the script: `from_pretrained` when
`not args.lowbit_path or not os.path.exists(args.lowbit_path)` (an empty
string is falsy in Python), otherwise `load_low_bit`. -/
def modelLoadAction (lowbitPath : String) (pathExists : String → Bool) : LoadAction :=
  if lowbitPath = "" ∨ pathExists lowbitPath = false then
    LoadAction.fromPretrained
  else
    LoadAction.loadLowBit

/-- The save branch of the script:
`if args.lowbit_path and not os.path.exists(args.lowbit_path): model.save_low_bit(...)`. -/
def savesLowBit (lowbitPath : String) (pathExists : String → Bool) : Bool :=
  decide (lowbitPath ≠ "" ∧ pathExists lowbitPath = false)

/-- C8: the low-bit checkpoint path has load-if-exists / save-if-absent
semantics: a provided, existing path is loaded via `load_low_bit` and not
saved; a provided, missing path is loaded via `from_pretrained` and then
saved; an absent path is loaded via `from_pretrained` and never saved. -/
theorem lowbit_load_save_semantics (p : String) (ex : String → Bool) :
    (p ≠ "" → ex p = true →
      modelLoadAction p ex = LoadAction.loadLowBit ∧ savesLowBit p ex = false) ∧
    (p ≠ "" → ex p = false →
      modelLoadAction p ex = LoadAction.fromPretrained ∧ savesLowBit p ex = true) ∧
    (p = "" →
      modelLoadAction p ex = LoadAction.fromPretrained ∧ savesLowBit p ex = false) := by
  unfold modelLoadAction savesLowBit
  refine ⟨fun h1 h2 => ⟨?_, ?_⟩, fun h1 h2 => ⟨?_, ?_⟩, fun h1 => ⟨?_, ?_⟩⟩
  · rw [if_neg]
    simp [h1, h2]
  · simp [h1, h2]
  · rw [if_pos (Or.inr h2)]
  · simp [h1, h2]
  · rw [if_pos (Or.inl h1)]
  · simp [h1]

theorem lowbit_load_save_semantics_witness :
    ("ckpt" : String) ≠ "" ∧ (fun _ : String => true) "ckpt" = true ∧
    modelLoadAction "ckpt" (fun _ => true) = LoadAction.loadLowBit ∧
    savesLowBit "ckpt" (fun _ => true) = false :=
  ⟨by decide, rfl,
    (lowbit_load_save_semantics "ckpt" (fun _ => true)).1 (by decide) rfl⟩
